import Mathlib

/-!
Verification of `mcp_server.py` (mcp-tool-sql-v2).

This file gives a shallow embedding of the pure logic of the server:
the sliding-window rate limiter `_check_rate_limit`, the agent factory
`get_agent` / `get_llm`, the streamed-event normalization of
`_run_sql_agent_stream`, and the response-envelope assembly of the
`sql_agent` tool entry point.  External effects (the clock, the MCP
context, the LangChain agent and the token-usage callback) are passed
in explicitly as oracle data; everything the Python code computes from
them is translated directly.

Timestamps (`time.monotonic()` values) are modelled as rationals,
Python string truthiness is modelled explicitly, and Python's mutable
per-key deque store is modelled as a total function from keys to
timestamp lists, updated functionally.
-/

namespace McpServer

/-! ## Sliding-window rate limiter (`_check_rate_limit`) -/

/-- `window_sec = 60.0` in `_check_rate_limit`. -/
def window_sec : ℚ := 60

/-- The purge loop `while q and now - q[0] > window_sec: q.popleft()`:
drop leading timestamps strictly older than the window. -/
def purgeQueue (now : ℚ) : List ℚ → List ℚ
  | [] => []
  | t :: ts => if now - t > window_sec then purgeQueue now ts else t :: ts

/-- `_RATE_LIMIT_STORE : Dict[str, deque]`, modelled as a total map;
a key that was never touched maps to the empty queue (the code creates
an empty deque on first access, which is observationally the same). -/
abbrev RateStore := String → List ℚ

/-- The initial empty store. -/
def emptyStore : RateStore := fun _ => []

/-- Functional update of the store at one key (the Python code mutates
the deque held in the dict in place). -/
def storeSet (s : RateStore) (k : String) (q : List ℚ) : RateStore :=
  fun k2 => if k2 = k then q else s k2

/-- `_check_rate_limit(key, limit)`: purge old timestamps from the key's
queue, reject if the remainder has reached `limit`, otherwise append `now`
and admit.  `now` (the value of `time.monotonic()`) is passed explicitly.
Returns the admission flag together with the updated store (the purge is
visible in the store even on rejection, because the deque is mutated). -/
def _check_rate_limit (now : ℚ) (key : String) (limit : ℕ) (s : RateStore) :
    Bool × RateStore :=
  let q := purgeQueue now (s key)
  if limit ≤ q.length then (false, storeSet s key q)
  else (true, storeSet s key (q ++ [now]))

/-- Iterate `_check_rate_limit` for one key over a list of successive
clock values, collecting the admission decisions. -/
def runCalls (key : String) (limit : ℕ) : List ℚ → RateStore → List Bool × RateStore
  | [], s => ([], s)
  | t :: ts, s =>
    let r1 := _check_rate_limit t key limit s
    let r2 := runCalls key limit ts r1.2
    (r1.1 :: r2.1, r2.2)

/-! ## Agent factory (`get_llm`, `build_sql_system_prompt`, `_mysql_uri`, `get_agent`) -/

/-- A raised Python exception, reduced to what the envelope reports:
`type(e).__name__` and `str(e)`. -/
structure Exn where
  name : String
  msg : String
deriving DecidableEq

/-- Python truthiness of an optional string (`None` and `""` are falsy). -/
def pyTruthy : Option String → Bool
  | none => false
  | some s => !s.isEmpty

/-- How an optional string renders inside a Python f-string
(`None` renders as the text `None`). -/
def pyRepr : Option String → String
  | none => "None"
  | some s => s

/-- Process configuration as read from the environment.  Numeric fields
hold the already-parsed values (`int(...)` / `float(...)` of the raw
environment strings). -/
structure Config where
  openai_api_key : Option String
  openai_model : Option String
  openai_temperature : ℚ
  mysql_host : Option String
  mysql_port : ℕ
  mysql_user : Option String
  mysql_password : Option String
  mysql_database : Option String
  db_name : Option String
  app_version : Option String
deriving DecidableEq

/-- The `ChatOpenAI` handle, reduced to its construction arguments. -/
structure LLM where
  model : String
  temperature : ℚ
  api_key : String
deriving DecidableEq

/-- `get_llm()`: fail with `ValueError("OPENAI_API_KEY is required")` when
the credential is absent or empty, else build the model handle. -/
def get_llm (cfg : Config) : Except Exn LLM :=
  if pyTruthy cfg.openai_api_key = false then
    .error ⟨"ValueError", "OPENAI_API_KEY is required"⟩
  else
    .ok { model := cfg.openai_model.getD "gpt-4o-mini"
          temperature := cfg.openai_temperature
          api_key := cfg.openai_api_key.getD "" }

/-- `ALLOWED_TABLES = None` (all tables visible). -/
def ALLOWED_TABLES : Option (List String) := none

/-- `DEFAULT_LIMIT = 10`. -/
def DEFAULT_LIMIT : ℕ := 10

/-- `_mysql_uri()` (f-string over the five MySQL settings). -/
def _mysql_uri (cfg : Config) : String :=
  "mysql+pymysql://" ++ pyRepr cfg.mysql_user ++ ":" ++ pyRepr cfg.mysql_password ++
    "@" ++ pyRepr cfg.mysql_host ++ ":" ++ toString cfg.mysql_port ++
    "/" ++ pyRepr cfg.mysql_database

/-- `build_sql_system_prompt(db_name)`: the fixed directive, after the
`.format(top_k=5)` substitution has been applied. -/
def build_sql_system_prompt (db_name : String) : String :=
  "\nYou are an agent designed to interact with a SQL database.\n" ++
  "Given an input question, create a syntactically correct " ++ db_name ++
  " query to run,\nthen look at the results of the query and return the answer. Unless the user\n" ++
  "specifies a specific number of examples they wish to obtain, always limit your\n" ++
  "query to at most 5 results.\n\n" ++
  "You can order the results by a relevant column to return the most interesting\n" ++
  "examples in the database. Never query for all the columns from a specific table,\n" ++
  "only ask for the relevant columns given the question.\n\n" ++
  "You MUST double check your query before executing it. If you get an error while\n" ++
  "executing a query, rewrite the query and try again.\n\n" ++
  "DO NOT make any DML statements (INSERT, UPDATE, DELETE, DROP etc.) to the\ndatabase.\n\n" ++
  "To start you should ALWAYS look at the tables in the database to see what you\n" ++
  "can query. Do NOT skip this step.\n\n" ++
  "Then you should query the schema of the most relevant tables.\n"

/-- The constructed SQL agent, reduced to its construction arguments
(the `create_sql_agent` call is external; what this system contributes
is which arguments it is built from). -/
structure Agent where
  llm : LLM
  db_uri : String
  allowed_tables : Option (List String)
  agent_type : String
  system_prompt : String
deriving DecidableEq

/-- `get_agent()`: memoized factory over the module-global `_AGENT`
singleton, modelled as explicit cache state (`none` = unset).  Returns
the call's result (the raised exception or the agent) together with the
cache after the call. -/
def get_agent (cfg : Config) (cache : Option Agent) : Except Exn Agent × Option Agent :=
  match cache with
  | some a => (.ok a, some a)
  | none =>
    match get_llm cfg with
    | .error e => (.error e, none)
    | .ok llm =>
      let a : Agent :=
        { llm := llm
          db_uri := _mysql_uri cfg
          allowed_tables := ALLOWED_TABLES
          agent_type := "tool-calling"
          system_prompt := build_sql_system_prompt (cfg.db_name.getD "hunter") }
      (.ok a, some a)

/-! ## Response model and streamed-event normalization -/

/-- Python's `str.strip()`: remove leading and trailing whitespace. -/
def pyStrip (s : String) : String :=
  String.mk (((s.data.dropWhile Char.isWhitespace).reverse.dropWhile Char.isWhitespace).reverse)

/-- `x or ""` for an optional string (`None` and `""` both give `""`). -/
def pyOrEmpty : Option String → String
  | none => ""
  | some s => s

/-- The `TokenUsage` pydantic model (cost as an exact rational). -/
structure TokenUsage where
  prompt_tokens : ℕ
  completion_tokens : ℕ
  total_tokens : ℕ
  total_cost_usd : ℚ
deriving DecidableEq

/-- The `StreamEvent` pydantic model. -/
structure StreamEvent where
  type : String
  tool : Option String
  message : Option String
deriving DecidableEq

/-- One entry of a chunk's `actions` list, reduced to the result of the
duck-typed tool extraction `getattr(action, "tool", None) or
(action.get("tool") if isinstance(action, dict) else None)` (a Python
string or `None`). -/
structure AgentAction where
  tool : Option String
deriving DecidableEq

/-- One entry of a chunk's `steps` list, reduced to the result of the
nested extraction `getattr(getattr(step, "action", step), "tool", None)`. -/
structure AgentStep where
  tool : Option String
deriving DecidableEq

/-- One chunk yielded by `agent.astream`: which of the three keys are
present and the associated values.  The `output` value itself may be
`None` (inner `Option`). -/
structure Chunk where
  actions : Option (List AgentAction)
  steps : Option (List AgentStep)
  output : Option (Option String)
deriving DecidableEq

/-- The accumulator of the `async for` loop in `_run_sql_agent_stream`:
the `answer` variable, the `events` list and the `step_num` counter. -/
structure StreamState where
  answer : String
  events : List StreamEvent
  step_num : ℕ
deriving DecidableEq

/-- `str(tool) if tool else None` (event's `tool` field). -/
def toolField (t : Option String) : Option String :=
  if pyTruthy t then t else none

/-- Body of `for action in chunk.get("actions", [])`. -/
def actionStep (st : StreamState) (a : AgentAction) : StreamState :=
  { st with
    step_num := st.step_num + 1
    events := st.events ++
      [{ type := "action", tool := toolField a.tool,
         message := some (if pyTruthy a.tool then "Calling tool: " ++ (a.tool.getD "")
                          else "Planning...") }] }

/-- Body of `for step in chunk.get("steps", [])`. -/
def stepStep (st : StreamState) (a : AgentStep) : StreamState :=
  { st with
    step_num := st.step_num + 1
    events := st.events ++
      [{ type := "step", tool := toolField a.tool,
         message := some (if pyTruthy a.tool then "Completed: " ++ (a.tool.getD "")
                          else "Step completed") }] }

/-- The `elif "output" in chunk` branch: overwrite the answer with the
stripped output text and append the terminal finish event (the progress
report at `step_num + 1` does not change the counter). -/
def outputStep (st : StreamState) (v : Option String) : StreamState :=
  { st with
    answer := pyStrip (pyOrEmpty v)
    events := st.events ++ [{ type := "finish", tool := none, message := some "Done" }] }

/-- Processing of one chunk: the `if "actions" / elif "steps" /
elif "output"` cascade (fixed branch priority). -/
def processChunk (st : StreamState) (c : Chunk) : StreamState :=
  match c.actions with
  | some acts => acts.foldl actionStep st
  | none =>
    match c.steps with
    | some steps => steps.foldl stepStep st
    | none =>
      match c.output with
      | some v => outputStep st v
      | none => st

/-- The empty initial state of the stream loop. -/
def st0 : StreamState := { answer := "", events := [], step_num := 0 }

/-- `_run_sql_agent_stream`: iterate the agent's chunks from the empty
state; the token usage is whatever the wrapping `get_openai_callback`
context measured (external, passed through). -/
def _run_sql_agent_stream (chunks : List Chunk) (usage : TokenUsage) :
    String × List StreamEvent × TokenUsage :=
  let st := chunks.foldl processChunk st0
  (st.answer, st.events, usage)

/-- The value `chunk.get("output")` when the chunk is classified into the
`output` branch (no `actions` key, no `steps` key, `output` key present);
`none` when some other branch handles the chunk. -/
def chunkOutputTaken (c : Chunk) : Option (Option String) :=
  match c.actions, c.steps, c.output with
  | none, none, some v => some v
  | _, _, _ => none

/-! ## The `sql_agent` tool entry point -/

/-- The `SqlAgentArgs` input model (`rate_limit` is validated `ge=1`
upstream by pydantic). -/
structure SqlAgentArgs where
  question : String
  stream : Bool
  rate_limit : Option ℕ
deriving DecidableEq

/-- The `SqlAgentResponse` envelope. -/
structure SqlAgentResponse where
  ok : Bool
  request_id : String
  model : String
  latency_ms : ℕ
  version : String
  question : String
  answer : String
  token_usage : Option TokenUsage
  error : Option String
  streamed_events : Option (List StreamEvent)
deriving DecidableEq

/-- The behaviour of the external LangChain agent and usage callback for
this request: what `agent.invoke(...)` would produce (`result.get("output")`,
or the exception it raises), what `agent.astream(...)` would yield (the
chunk list, or the exception the iteration raises), and the counters the
`get_openai_callback` context records. -/
structure AgentBehavior where
  direct : Except Exn (Option String)
  chunks : Except Exn (List Chunk)
  usage : TokenUsage

/-- Per-request ambient data: the generated request id, the measured
latency, the invocation context's `client_id` attribute (`none` when
`ctx` is `None` or the attribute is missing or `None`; truthiness is
applied where the code applies it), the monotonic-clock value used by
the rate check, and the external agent behaviour. -/
structure Env where
  request_id : String
  latency_ms : ℕ
  client_id : Option String
  now : ℚ
  behavior : AgentBehavior

/-- `_get_version()`. -/
def _get_version (cfg : Config) : String := cfg.app_version.getD "v:1.0"

/-- The rate-limit key resolution:
`key = getattr(ctx, "client_id", None) if ctx else None;
key = str(key) if key else "global"`. -/
def rateKey (client_id : Option String) : String :=
  if pyTruthy client_id then client_id.getD "" else "global"

/-- `user_msg = f"{args.question}\n(Use LIMIT <= {DEFAULT_LIMIT}.)"`. -/
def userMsg (question : String) : String :=
  question ++ "\n(Use LIMIT <= " ++ toString DEFAULT_LIMIT ++ ".)"

/-- What one `sql_agent` call produces: the returned envelope, the
rate-limit store afterwards, the `_AGENT` singleton afterwards, and
whether `get_agent()` was called / the agent was invoked (either mode). -/
structure SqlAgentResult where
  resp : SqlAgentResponse
  store : RateStore
  cache : Option Agent
  called_get_agent : Bool
  invoked_agent : Bool

/-- The failure envelope built in the `except Exception as e` handler. -/
def errorEnvelope (cfg : Config) (env : Env) (args : SqlAgentArgs) (e : Exn) :
    SqlAgentResponse :=
  { ok := false
    request_id := env.request_id
    model := cfg.openai_model.getD "gpt-4o-mini"
    latency_ms := env.latency_ms
    version := _get_version cfg
    question := args.question
    answer := ""
    token_usage := none
    error := some (e.name ++ ": " ++ e.msg)
    streamed_events := none }

/-- The `try:` block of `sql_agent`: obtain the agent, run the requested
mode, build the success envelope; any raised exception becomes the
failure envelope. -/
def sqlAgentDispatch (cfg : Config) (env : Env) (args : SqlAgentArgs)
    (cache : Option Agent) (store : RateStore) : SqlAgentResult :=
  match (get_agent cfg cache).1 with
  | .error e =>
    { resp := errorEnvelope cfg env args e
      store := store
      cache := (get_agent cfg cache).2
      called_get_agent := true
      invoked_agent := false }
  | .ok _ =>
    if args.stream then
      match env.behavior.chunks with
      | .error e =>
        { resp := errorEnvelope cfg env args e
          store := store
          cache := (get_agent cfg cache).2
          called_get_agent := true
          invoked_agent := true }
      | .ok chunks =>
        { resp :=
            { ok := true
              request_id := env.request_id
              model := cfg.openai_model.getD "gpt-4o-mini"
              latency_ms := env.latency_ms
              version := _get_version cfg
              question := args.question
              answer := (_run_sql_agent_stream chunks env.behavior.usage).1
              token_usage := some (_run_sql_agent_stream chunks env.behavior.usage).2.2
              error := none
              streamed_events := some (_run_sql_agent_stream chunks env.behavior.usage).2.1 }
          store := store
          cache := (get_agent cfg cache).2
          called_get_agent := true
          invoked_agent := true }
    else
      match env.behavior.direct with
      | .error e =>
        { resp := errorEnvelope cfg env args e
          store := store
          cache := (get_agent cfg cache).2
          called_get_agent := true
          invoked_agent := true }
      | .ok o =>
        { resp :=
            { ok := true
              request_id := env.request_id
              model := cfg.openai_model.getD "gpt-4o-mini"
              latency_ms := env.latency_ms
              version := _get_version cfg
              question := args.question
              answer := pyStrip (pyOrEmpty o)
              token_usage := some env.behavior.usage
              error := none
              streamed_events := none }
          store := store
          cache := (get_agent cfg cache).2
          called_get_agent := true
          invoked_agent := true }

/-- The `sql_agent` tool: rate-limit gate (when requested) in front of
the dispatch/execute/envelope pipeline.  The purged/updated store is kept
even on rejection, mirroring the in-place deque mutation. -/
def sql_agent (cfg : Config) (env : Env) (args : SqlAgentArgs)
    (cache : Option Agent) (store : RateStore) : SqlAgentResult :=
  match args.rate_limit with
  | none => sqlAgentDispatch cfg env args cache store
  | some rl =>
    if (_check_rate_limit env.now (rateKey env.client_id) rl store).1 then
      sqlAgentDispatch cfg env args cache
        (_check_rate_limit env.now (rateKey env.client_id) rl store).2
    else
      { resp :=
          { ok := false
            request_id := env.request_id
            model := cfg.openai_model.getD "gpt-4o-mini"
            latency_ms := env.latency_ms
            version := _get_version cfg
            question := args.question
            answer := ""
            token_usage := none
            error := some "Rate limit exceeded"
            streamed_events := none }
        store := (_check_rate_limit env.now (rateKey env.client_id) rl store).2
        cache := cache
        called_get_agent := false
        invoked_agent := false }

/-! ## Concrete fixtures used by the witnesses -/

/-- A configuration with no credential (everything else arbitrary). -/
def cfgNoKey : Config :=
  { openai_api_key := none
    openai_model := none
    openai_temperature := 0
    mysql_host := none
    mysql_port := 0
    mysql_user := none
    mysql_password := none
    mysql_database := none
    db_name := none
    app_version := none }

/-- The same configuration with a credential present. -/
def cfgWithKey : Config := { cfgNoKey with openai_api_key := some "sk-test" }

/-- Zero token usage. -/
def usage0 : TokenUsage :=
  { prompt_tokens := 0, completion_tokens := 0, total_tokens := 0, total_cost_usd := 0 }

/-- A pre-built agent instance (used as an already-set singleton). -/
def agentTest : Agent :=
  { llm := { model := "gpt-4o-mini", temperature := 0, api_key := "sk-test" }
    db_uri := _mysql_uri cfgWithKey
    allowed_tables := none
    agent_type := "tool-calling"
    system_prompt := build_sql_system_prompt "hunter" }

/-- An agent behaviour with trivial success results. -/
def behaviorIdle : AgentBehavior := { direct := .ok none, chunks := .ok [], usage := usage0 }

/-- A minimal request environment. -/
def envTest : Env :=
  { request_id := "r", latency_ms := 0, client_id := none, now := 0, behavior := behaviorIdle }

/-- Plain direct-mode arguments. -/
def argsDirect : SqlAgentArgs := { question := "test", stream := false, rate_limit := none }

/-- Plain streamed-mode arguments. -/
def argsStream : SqlAgentArgs := { question := "q", stream := true, rate_limit := none }

/-- Direct-mode arguments with a per-minute limit of 1. -/
def argsRate : SqlAgentArgs := { question := "q", stream := false, rate_limit := some 1 }

/-- A pure-output chunk. -/
def chunkOut : Chunk := { actions := none, steps := none, output := some (some " Tables: jobs ") }

/-- A chunk carrying both an `actions` key and an `output` key. -/
def chunkBoth : Chunk :=
  { actions := some [{ tool := some "t1" }], steps := none, output := some (some "ignored") }

/-- Environment whose agent streams a single output chunk. -/
def envStream : Env :=
  { envTest with behavior := { direct := .ok none, chunks := .ok [chunkOut], usage := usage0 } }

/-- Environment whose agent answers directly. -/
def envDirectOut : Env :=
  { envTest with
    behavior := { direct := .ok (some "Here are 3 job titles."), chunks := .ok [], usage := usage0 } }

/-- A store in which the "global" key has one fresh admission at time 0. -/
def storeFull : RateStore := storeSet emptyStore "global" [0]

/-! ## Helper lemmas: rate limiter -/

lemma storeSet_self (s : RateStore) (k : String) (q : List ℚ) :
    storeSet s k q k = q := by
  simp [storeSet]

lemma purgeQueue_eq_self (now : ℚ) (q : List ℚ)
    (h : ∀ x ∈ q, now - x ≤ window_sec) : purgeQueue now q = q := by
  cases q with
  | nil => rfl
  | cons t ts =>
    have ht := h t (List.mem_cons_self _ _)
    simp [purgeQueue, not_lt.2 ht]

lemma purgeQueue_nil_of_old (now : ℚ) (q : List ℚ)
    (h : ∀ x ∈ q, window_sec < now - x) : purgeQueue now q = [] := by
  induction q with
  | nil => rfl
  | cons t ts ih =>
    simp [purgeQueue, h t (List.mem_cons_self _ _),
      ih (fun x hx => h x (List.mem_cons_of_mem _ hx))]

lemma purgeQueue_sublist (now : ℚ) (q : List ℚ) :
    List.Sublist (purgeQueue now q) q := by
  induction q with
  | nil => simp [purgeQueue]
  | cons t ts ih =>
    simp only [purgeQueue]
    split
    · exact ih.trans (List.sublist_cons_self t ts)
    · exact List.Sublist.refl _

/-- Burst behaviour of the limiter: if every call time in `ts` is within
the 60-second window of every earlier one (and of every timestamp already
queued), no purge ever fires, so call `i` is admitted iff the queue built
so far is still below the limit, i.e. iff `(s key).length + i < N`. -/
lemma runCalls_burst (key : String) (N : ℕ) (ts : List ℚ) :
    ∀ (s : RateStore),
      (∀ x ∈ s key, ∀ u ∈ ts, x ≤ u ∧ u - x ≤ window_sec) →
      List.Pairwise (fun a b => a ≤ b ∧ b - a ≤ window_sec) ts →
      (runCalls key N ts s).1 =
        (List.range ts.length).map (fun i => decide ((s key).length + i < N)) := by
  induction ts with
  | nil => intro s _ _; simp [runCalls]
  | cons t rest ih =>
    intro s hq hp
    rw [List.pairwise_cons] at hp
    obtain ⟨ht, hrest⟩ := hp
    have hpurge : purgeQueue t (s key) = s key :=
      purgeQueue_eq_self _ _ (fun x hx => (hq x hx t (List.mem_cons_self _ _)).2)
    simp only [runCalls, _check_rate_limit, hpurge]
    by_cases hlen : N ≤ (s key).length
    · rw [if_pos hlen]
      have ihr := ih (storeSet s key (s key))
        (fun x hx u hu => hq x (by rwa [storeSet_self] at hx) u (List.mem_cons_of_mem _ hu))
        hrest
      rw [storeSet_self] at ihr
      simp only [ihr, List.length_cons, List.range_succ_eq_map, List.map_cons, List.map_map]
      have h0 : ¬ ((s key).length + 0 < N) := by omega
      simp only [h0, decide_eq_false_iff_not, not_false_eq_true, decide_False]
      congr 1
      refine List.map_eq_map_iff.mpr ?_
      intro i _
      simp only [Function.comp_apply, decide_eq_decide, List.length_nil, List.length_cons]
      omega
    · rw [if_neg hlen]
      have ihr := ih (storeSet s key (s key ++ [t]))
        (fun x hx u hu => by
          rw [storeSet_self] at hx
          rcases List.mem_append.1 hx with hx | hx
          · exact hq x hx u (List.mem_cons_of_mem _ hu)
          · rw [List.mem_singleton.1 hx]; exact ht u hu)
        hrest
      rw [storeSet_self] at ihr
      simp only [ihr, List.length_append, List.length_cons, List.range_succ_eq_map,
        List.map_cons, List.map_map]
      have h0 : (s key).length + 0 < N := by omega
      simp only [h0, decide_True]
      congr 1
      refine List.map_eq_map_iff.mpr ?_
      intro i _
      simp only [Function.comp_apply, decide_eq_decide, List.length_nil, List.length_cons]
      omega

/-! ## Helper lemmas: stream normalization -/

lemma foldl_answer_preserved {α : Type} (f : StreamState → α → StreamState)
    (hf : ∀ st a, (f st a).answer = st.answer) (l : List α) (st : StreamState) :
    (l.foldl f st).answer = st.answer := by
  induction l generalizing st with
  | nil => rfl
  | cons a rest ih => rw [List.foldl_cons, ih, hf]

lemma foldl_events_extend_of {α : Type} (f : StreamState → α → StreamState) (ty : String)
    (hf : ∀ st a, ∃ ev : StreamEvent, ev.type = ty ∧ (f st a).events = st.events ++ [ev])
    (l : List α) (st : StreamState) :
    ∃ tail, (l.foldl f st).events = st.events ++ tail ∧ ∀ e ∈ tail, e.type = ty := by
  induction l generalizing st with
  | nil => exact ⟨[], by simp, by simp⟩
  | cons a rest ih =>
    obtain ⟨ev, hty, hev⟩ := hf st a
    obtain ⟨tail, htl, hall⟩ := ih (f st a)
    refine ⟨ev :: tail, ?_, ?_⟩
    · rw [List.foldl_cons, htl, hev, List.append_assoc]
      rfl
    · intro e he
      rcases List.mem_cons.1 he with h | h
      · rw [h]; exact hty
      · exact hall e h

lemma actionStep_event (st : StreamState) (a : AgentAction) :
    ∃ ev : StreamEvent, ev.type = "action" ∧ (actionStep st a).events = st.events ++ [ev] :=
  ⟨{ type := "action", tool := toolField a.tool,
     message := some (if pyTruthy a.tool then "Calling tool: " ++ (a.tool.getD "")
                      else "Planning...") }, rfl, rfl⟩

lemma stepStep_event (st : StreamState) (a : AgentStep) :
    ∃ ev : StreamEvent, ev.type = "step" ∧ (stepStep st a).events = st.events ++ [ev] :=
  ⟨{ type := "step", tool := toolField a.tool,
     message := some (if pyTruthy a.tool then "Completed: " ++ (a.tool.getD "")
                      else "Step completed") }, rfl, rfl⟩

lemma processChunk_no_output (st : StreamState) (c : Chunk)
    (h : chunkOutputTaken c = none) :
    (processChunk st c).answer = st.answer ∧
    ∃ tail, (processChunk st c).events = st.events ++ tail ∧
      ∀ e ∈ tail, e.type = "action" ∨ e.type = "step" := by
  unfold processChunk
  rcases hA : c.actions with _ | acts
  · rcases hS : c.steps with _ | ss
    · rcases hO : c.output with _ | v
      · exact ⟨rfl, [], by simp, by simp⟩
      · exfalso
        unfold chunkOutputTaken at h
        rw [hA, hS, hO] at h
        simp at h
    · refine ⟨foldl_answer_preserved stepStep (fun st a => rfl) ss st, ?_⟩
      obtain ⟨tail, htl, hall⟩ := foldl_events_extend_of stepStep "step" stepStep_event ss st
      exact ⟨tail, htl, fun e he => Or.inr (hall e he)⟩
  · refine ⟨foldl_answer_preserved actionStep (fun st a => rfl) acts st, ?_⟩
    obtain ⟨tail, htl, hall⟩ := foldl_events_extend_of actionStep "action" actionStep_event acts st
    exact ⟨tail, htl, fun e he => Or.inl (hall e he)⟩

lemma processChunk_output (st : StreamState) (c : Chunk) (v : Option String)
    (h : chunkOutputTaken c = some v) :
    processChunk st c = outputStep st v := by
  unfold chunkOutputTaken at h
  rcases hA : c.actions with _ | acts <;> rw [hA] at h
  · rcases hS : c.steps with _ | ss <;> rw [hS] at h
    · rcases hO : c.output with _ | w <;> rw [hO] at h
      · simp at h
      · simp only [Option.some_inj] at h
        unfold processChunk
        rw [hA, hS, hO, h]
    · simp at h
  · simp at h

lemma foldl_processChunk_no_output (chunks : List Chunk) (st : StreamState)
    (h : ∀ c ∈ chunks, chunkOutputTaken c = none) :
    (chunks.foldl processChunk st).answer = st.answer ∧
    ∃ tail, (chunks.foldl processChunk st).events = st.events ++ tail ∧
      ∀ e ∈ tail, e.type = "action" ∨ e.type = "step" := by
  induction chunks generalizing st with
  | nil => exact ⟨rfl, [], by simp, by simp⟩
  | cons c rest ih =>
    obtain ⟨ha1, t1, he1, hall1⟩ := processChunk_no_output st c (h c (List.mem_cons_self _ _))
    obtain ⟨ha2, t2, he2, hall2⟩ :=
      ih (processChunk st c) (fun c2 hc2 => h c2 (List.mem_cons_of_mem _ hc2))
    refine ⟨by rw [List.foldl_cons, ha2, ha1], t1 ++ t2, ?_, ?_⟩
    · rw [List.foldl_cons, he2, he1, List.append_assoc]
    · intro e he
      rcases List.mem_append.1 he with h' | h'
      exacts [hall1 e h', hall2 e h']

lemma processChunk_events_extend (st : StreamState) (c : Chunk) :
    ∃ tail, (processChunk st c).events = st.events ++ tail := by
  unfold processChunk
  rcases c.actions with _ | acts
  · rcases c.steps with _ | ss
    · rcases c.output with _ | v
      · exact ⟨[], by simp⟩
      · exact ⟨[{ type := "finish", tool := none, message := some "Done" }], rfl⟩
    · obtain ⟨tail, htl, _⟩ := foldl_events_extend_of stepStep "step" stepStep_event ss st
      exact ⟨tail, htl⟩
  · obtain ⟨tail, htl, _⟩ := foldl_events_extend_of actionStep "action" actionStep_event acts st
    exact ⟨tail, htl⟩

lemma foldl_processChunk_events_extend (chunks : List Chunk) (st : StreamState) :
    ∃ tail, (chunks.foldl processChunk st).events = st.events ++ tail := by
  induction chunks generalizing st with
  | nil => exact ⟨[], by simp⟩
  | cons c rest ih =>
    obtain ⟨t1, he1⟩ := processChunk_events_extend st c
    obtain ⟨t2, he2⟩ := ih (processChunk st c)
    exact ⟨t1 ++ t2, by rw [List.foldl_cons, he2, he1, List.append_assoc]⟩

/-! ## Helper lemmas: the entry point -/

lemma sqlAgentDispatch_ok_iff_error (cfg : Config) (env : Env) (args : SqlAgentArgs)
    (cache : Option Agent) (store : RateStore) :
    ((sqlAgentDispatch cfg env args cache store).resp.ok = true ↔
      (sqlAgentDispatch cfg env args cache store).resp.error = none) := by
  unfold sqlAgentDispatch
  rcases (get_agent cfg cache).1 with e | a
  · simp [errorEnvelope]
  · rcases hs : args.stream
    · rcases env.behavior.direct with e | o
      · simp [hs, errorEnvelope]
      · simp [hs]
    · rcases env.behavior.chunks with e | chunks
      · simp [hs, errorEnvelope]
      · simp [hs]

lemma sqlAgentDispatch_streamed_events (cfg : Config) (env : Env) (args : SqlAgentArgs)
    (cache : Option Agent) (store : RateStore) :
    (args.stream = false → (sqlAgentDispatch cfg env args cache store).resp.streamed_events = none) ∧
    ((sqlAgentDispatch cfg env args cache store).resp.ok = false →
      (sqlAgentDispatch cfg env args cache store).resp.streamed_events = none) := by
  unfold sqlAgentDispatch
  rcases (get_agent cfg cache).1 with e | a
  · simp [errorEnvelope]
  · rcases hs : args.stream
    · rcases env.behavior.direct with e | o
      · simp [hs, errorEnvelope]
      · simp [hs]
    · rcases env.behavior.chunks with e | chunks
      · simp [hs, errorEnvelope]
      · simp [hs]

lemma sqlAgentDispatch_exn (cfg : Config) (env : Env) (args : SqlAgentArgs)
    (cache : Option Agent) (store : RateStore) (e : Exn)
    (he : (get_agent cfg cache).1 = .error e ∨
      ((∃ a, (get_agent cfg cache).1 = .ok a) ∧
        (if args.stream then env.behavior.chunks = .error e
         else env.behavior.direct = .error e))) :
    (sqlAgentDispatch cfg env args cache store).resp = errorEnvelope cfg env args e := by
  unfold sqlAgentDispatch
  rcases he with hga | ⟨⟨a, hga⟩, hmode⟩
  · rw [hga]
  · rw [hga]
    rcases hs : args.stream
    · rw [hs] at hmode
      simp only [Bool.false_eq_true, if_false] at hmode
      simp only [hs, Bool.false_eq_true, if_false, hmode]
    · rw [hs] at hmode
      simp only [if_true] at hmode
      simp only [hs, if_true, hmode]

lemma sql_agent_pass (cfg : Config) (env : Env) (args : SqlAgentArgs)
    (cache : Option Agent) (store : RateStore)
    (hpass : args.rate_limit = none ∨ ∀ rl, args.rate_limit = some rl →
      (_check_rate_limit env.now (rateKey env.client_id) rl store).1 = true) :
    ∃ store2, sql_agent cfg env args cache store = sqlAgentDispatch cfg env args cache store2 := by
  rcases hrl : args.rate_limit with _ | rl
  · exact ⟨store, by simp [sql_agent, hrl]⟩
  · have hr : (_check_rate_limit env.now (rateKey env.client_id) rl store).1 = true := by
      rcases hpass with hnone | hall
      · rw [hrl] at hnone; simp at hnone
      · exact hall rl hrl
    exact ⟨(_check_rate_limit env.now (rateKey env.client_id) rl store).2,
      by simp [sql_agent, hrl, hr]⟩

lemma sqlAgentDispatch_stream_ok (cfg : Config) (env : Env) (args : SqlAgentArgs)
    (cache : Option Agent) (store : RateStore) (chunks : List Chunk)
    (hok : ∃ a, (get_agent cfg cache).1 = .ok a)
    (hs : args.stream = true) (hc : env.behavior.chunks = .ok chunks) :
    (sqlAgentDispatch cfg env args cache store).resp.answer =
      (chunks.foldl processChunk st0).answer ∧
    (sqlAgentDispatch cfg env args cache store).resp.streamed_events =
      some (chunks.foldl processChunk st0).events ∧
    (sqlAgentDispatch cfg env args cache store).resp.ok = true := by
  obtain ⟨a, hga⟩ := hok
  unfold sqlAgentDispatch
  rw [hga]
  simp [hs, hc, _run_sql_agent_stream]

lemma sqlAgentDispatch_direct_ok (cfg : Config) (env : Env) (args : SqlAgentArgs)
    (cache : Option Agent) (store : RateStore) (o : Option String)
    (hok : ∃ a, (get_agent cfg cache).1 = .ok a)
    (hs : args.stream = false) (hd : env.behavior.direct = .ok o) :
    (sqlAgentDispatch cfg env args cache store).resp.answer = pyStrip (pyOrEmpty o) ∧
    (sqlAgentDispatch cfg env args cache store).resp.ok = true ∧
    (sqlAgentDispatch cfg env args cache store).resp.token_usage = some env.behavior.usage := by
  obtain ⟨a, hga⟩ := hok
  unfold sqlAgentDispatch
  rw [hga]
  simp [hs, hd]

/-! ## The claims -/

/-- C1: for every key and limit N ≥ 1, the limiter admits exactly the
first N calls of a burst lying within one trailing 60-second window and
rejects the rest (part 1); a rejected call leaves the key's queue purged
but without a new timestamp (part 2); and once every queued timestamp is
older than the window, admission resumes (part 3). -/
theorem rate_limiter_sliding_window :
    (∀ (key : String) (N : ℕ) (ts : List ℚ) (s : RateStore),
        1 ≤ N → s key = [] →
        List.Pairwise (fun a b => a ≤ b ∧ b - a ≤ window_sec) ts →
        (runCalls key N ts s).1 =
          (List.range ts.length).map (fun i => decide (i < N))) ∧
    (∀ (now : ℚ) (key : String) (N : ℕ) (s : RateStore),
        (_check_rate_limit now key N s).1 = false →
        (_check_rate_limit now key N s).2 key = purgeQueue now (s key)) ∧
    (∀ (now : ℚ) (key : String) (N : ℕ) (s : RateStore),
        1 ≤ N → (∀ x ∈ s key, window_sec < now - x) →
        (_check_rate_limit now key N s).1 = true) := by
  refine ⟨?_, ?_, ?_⟩
  · intro key N ts s _ h0 hp
    have h := runCalls_burst key N ts s (by rw [h0]; intro x hx; simp at hx) hp
    rw [h0] at h
    simpa using h
  · intro now key N s hf
    by_cases hC : N ≤ (purgeQueue now (s key)).length
    · simp [_check_rate_limit, hC, storeSet_self]
    · simp [_check_rate_limit, hC] at hf
  · intro now key N s hN hold
    have hp : purgeQueue now (s key) = [] := purgeQueue_nil_of_old _ _ hold
    have hC : ¬ N ≤ (purgeQueue now (s key)).length := by
      rw [hp]
      simp
      omega
    simp [_check_rate_limit, if_neg hC]

/-- Witness for C1: concrete instantiations of all three parts. -/
theorem rate_limiter_sliding_window_witness :
    ((runCalls "k" 2 [(0:ℚ), 1, 2] emptyStore).1 =
        (List.range 3).map (fun i => decide (i < 2))) ∧
    ((_check_rate_limit 2 "k" 1 (storeSet emptyStore "k" [(0:ℚ)])).2 "k" =
        purgeQueue 2 [(0:ℚ)]) ∧
    ((_check_rate_limit 61 "k" 1 (storeSet emptyStore "k" [(0:ℚ)])).1 = true) := by
  refine ⟨?_, ?_, ?_⟩
  · exact rate_limiter_sliding_window.1 "k" 2 [0, 1, 2] emptyStore (by norm_num) rfl
      (by norm_num [List.pairwise_cons, window_sec])
  · have hf : (_check_rate_limit 2 "k" 1 (storeSet emptyStore "k" [(0:ℚ)])).1 = false := by
      norm_num [_check_rate_limit, purgeQueue, storeSet, window_sec]
    have h := rate_limiter_sliding_window.2.1 2 "k" 1 (storeSet emptyStore "k" [(0:ℚ)]) hf
    rwa [storeSet_self] at h
  · exact rate_limiter_sliding_window.2.2 61 "k" 1 (storeSet emptyStore "k" [(0:ℚ)])
      (by norm_num)
      (by rw [storeSet_self]; intro x hx; rw [List.mem_singleton.1 hx]; norm_num [window_sec])

/-- C10: `_check_rate_limit` preserves the store invariant for the key it
touches (assuming a non-decreasing clock, i.e. every queued timestamp is
at most `now`): the queue stays sorted non-decreasingly, keeps all entries
at most `now`, and has at most `N` entries after a call with limit `N`
that started with at most `N` entries. -/
theorem rate_limiter_store_invariant (now : ℚ) (key : String) (N : ℕ) (s : RateStore)
    (hsort : (s key).Sorted (· ≤ ·)) (hle : ∀ x ∈ s key, x ≤ now)
    (hlen : (s key).length ≤ N) :
    ((_check_rate_limit now key N s).2 key).Sorted (· ≤ ·) ∧
    ((_check_rate_limit now key N s).2 key).length ≤ N ∧
    (∀ x ∈ (_check_rate_limit now key N s).2 key, x ≤ now) := by
  have hsub := purgeQueue_sublist now (s key)
  have hsort2 : (purgeQueue now (s key)).Sorted (· ≤ ·) := List.Pairwise.sublist hsub hsort
  have hle2 : ∀ x ∈ purgeQueue now (s key), x ≤ now := fun x hx => hle x (hsub.subset hx)
  have hlen2 : (purgeQueue now (s key)).length ≤ (s key).length := hsub.length_le
  by_cases hC : N ≤ (purgeQueue now (s key)).length
  · simp only [_check_rate_limit, if_pos hC, storeSet_self]
    exact ⟨hsort2, le_trans hlen2 hlen, hle2⟩
  · simp only [_check_rate_limit, if_neg hC, storeSet_self]
    refine ⟨?_, ?_, ?_⟩
    · have : List.Pairwise (· ≤ ·) (purgeQueue now (s key) ++ [now]) := by
        rw [List.pairwise_append]
        exact ⟨hsort2, by simp, by simpa using hle2⟩
      exact this
    · simp only [List.length_append, List.length_singleton]
      omega
    · intro x hx
      rcases List.mem_append.1 hx with hx | hx
      · exact hle2 x hx
      · rw [List.mem_singleton.1 hx]

/-- Witness for C10 at a concrete store. -/
theorem rate_limiter_store_invariant_witness :
    ((_check_rate_limit 10 "k" 1 (storeSet emptyStore "k" [(5:ℚ)])).2 "k").Sorted (· ≤ ·) ∧
    ((_check_rate_limit 10 "k" 1 (storeSet emptyStore "k" [(5:ℚ)])).2 "k").length ≤ 1 ∧
    (∀ x ∈ (_check_rate_limit 10 "k" 1 (storeSet emptyStore "k" [(5:ℚ)])).2 "k", x ≤ 10) :=
  rate_limiter_store_invariant 10 "k" 1 (storeSet emptyStore "k" [(5:ℚ)])
    (by rw [storeSet_self]; exact List.sorted_singleton _)
    (by rw [storeSet_self]; intro x hx; rw [List.mem_singleton.1 hx]; norm_num)
    (by rw [storeSet_self]; norm_num)

/-- C8: `get_agent` is memoized and idempotent — with the singleton set it
returns the cached instance without consulting the configuration (the
result is the same under any two configurations); a failed first
construction (e.g. the missing-credential `ValueError`) leaves the
singleton unset; and a later call with the cache unset re-attempts and,
when `get_llm` succeeds, constructs and caches an instance. -/
theorem get_agent_memoized :
    (∀ (cfg cfg2 : Config) (a : Agent),
        get_agent cfg (some a) = (.ok a, some a) ∧
        get_agent cfg2 (some a) = get_agent cfg (some a)) ∧
    (∀ (cfg : Config) (e : Exn), get_llm cfg = .error e →
        get_agent cfg none = (.error e, none)) ∧
    (∀ (cfg : Config), cfg.openai_api_key = none →
        get_agent cfg none = (.error ⟨"ValueError", "OPENAI_API_KEY is required"⟩, none)) ∧
    (∀ (cfg : Config) (llm : LLM), get_llm cfg = .ok llm →
        ∃ a : Agent, get_agent cfg none = (.ok a, some a)) := by
  refine ⟨fun cfg cfg2 a => ⟨rfl, rfl⟩, ?_, ?_, ?_⟩
  · intro cfg e he
    simp [get_agent, he]
  · intro cfg hk
    simp [get_agent, get_llm, hk, pyTruthy]
  · intro cfg llm hl
    exact ⟨{ llm := llm, db_uri := _mysql_uri cfg, allowed_tables := ALLOWED_TABLES,
             agent_type := "tool-calling",
             system_prompt := build_sql_system_prompt (cfg.db_name.getD "hunter") },
           by simp [get_agent, hl]⟩

/-- Witness for C8: concrete failed-then-retried construction. -/
theorem get_agent_memoized_witness :
    (get_agent cfgNoKey none = (.error ⟨"ValueError", "OPENAI_API_KEY is required"⟩, none)) ∧
    (∃ a : Agent, get_agent cfgWithKey none = (.ok a, some a)) :=
  ⟨get_agent_memoized.2.2.1 cfgNoKey rfl,
   get_agent_memoized.2.2.2 cfgWithKey
     { model := "gpt-4o-mini", temperature := 0, api_key := "sk-test" } rfl⟩

/-- C2: every envelope returned by `sql_agent` has `ok = true` iff
`error` is null, and `ok = false` iff `error` is non-null. -/
theorem envelope_ok_iff_error_null (cfg : Config) (env : Env) (args : SqlAgentArgs)
    (cache : Option Agent) (store : RateStore) :
    ((sql_agent cfg env args cache store).resp.ok = true ↔
      (sql_agent cfg env args cache store).resp.error = none) ∧
    ((sql_agent cfg env args cache store).resp.ok = false ↔
      (sql_agent cfg env args cache store).resp.error ≠ none) := by
  have h : (sql_agent cfg env args cache store).resp.ok = true ↔
      (sql_agent cfg env args cache store).resp.error = none := by
    unfold sql_agent
    rcases hrl : args.rate_limit with _ | rl
    · exact sqlAgentDispatch_ok_iff_error cfg env args cache store
    · rcases hr : (_check_rate_limit env.now (rateKey env.client_id) rl store).1
      · simp [hr]
      · simpa [hr] using sqlAgentDispatch_ok_iff_error cfg env args cache
          (_check_rate_limit env.now (rateKey env.client_id) rl store).2
  exact ⟨h, Bool.eq_false_iff.trans (not_congr h)⟩

/-- Witness for C2: the invariant at one concrete call. -/
theorem envelope_ok_iff_error_null_witness :
    ((sql_agent cfgWithKey envTest argsDirect (some agentTest) emptyStore).resp.ok = true ↔
      (sql_agent cfgWithKey envTest argsDirect (some agentTest) emptyStore).resp.error = none) ∧
    ((sql_agent cfgWithKey envTest argsDirect (some agentTest) emptyStore).resp.ok = false ↔
      (sql_agent cfgWithKey envTest argsDirect (some agentTest) emptyStore).resp.error ≠ none) :=
  envelope_ok_iff_error_null cfgWithKey envTest argsDirect (some agentTest) emptyStore

/-- C3: any exception raised from agent acquisition through execution of
either mode is not propagated: the envelope has `ok = false`, empty
answer, null token usage, and `error = "<type name>: <message>"`. -/
theorem exception_failure_envelope (cfg : Config) (env : Env) (args : SqlAgentArgs)
    (cache : Option Agent) (store : RateStore) (e : Exn)
    (hpass : args.rate_limit = none ∨ ∀ rl, args.rate_limit = some rl →
      (_check_rate_limit env.now (rateKey env.client_id) rl store).1 = true)
    (he : (get_agent cfg cache).1 = .error e ∨
      ((∃ a, (get_agent cfg cache).1 = .ok a) ∧
        (if args.stream then env.behavior.chunks = .error e
         else env.behavior.direct = .error e))) :
    (sql_agent cfg env args cache store).resp.ok = false ∧
    (sql_agent cfg env args cache store).resp.answer = "" ∧
    (sql_agent cfg env args cache store).resp.token_usage = none ∧
    (sql_agent cfg env args cache store).resp.error = some (e.name ++ ": " ++ e.msg) := by
  obtain ⟨store2, heq⟩ := sql_agent_pass cfg env args cache store hpass
  rw [heq, sqlAgentDispatch_exn cfg env args cache store2 e he]
  exact ⟨rfl, rfl, rfl, rfl⟩

/-- Witness for C3: the missing-credential `ValueError` surfaces as
`"ValueError: OPENAI_API_KEY is required"`. -/
theorem exception_failure_envelope_witness :
    (sql_agent cfgNoKey envTest argsDirect none emptyStore).resp.ok = false ∧
    (sql_agent cfgNoKey envTest argsDirect none emptyStore).resp.answer = "" ∧
    (sql_agent cfgNoKey envTest argsDirect none emptyStore).resp.token_usage = none ∧
    (sql_agent cfgNoKey envTest argsDirect none emptyStore).resp.error =
      some "ValueError: OPENAI_API_KEY is required" := by
  have h := exception_failure_envelope cfgNoKey envTest argsDirect none emptyStore
    ⟨"ValueError", "OPENAI_API_KEY is required"⟩ (Or.inl rfl) (Or.inl rfl)
  exact ⟨h.1, h.2.1, h.2.2.1, h.2.2.2⟩

/-- C4: a rejected rate-limited request returns immediately with
`ok = false`, `error = "Rate limit exceeded"`, empty answer and null
token usage, without calling `get_agent` or invoking the agent; the key
is the stringified truthy `client_id`, else `"global"`. -/
theorem rate_limit_rejection_envelope (cfg : Config) (env : Env) (args : SqlAgentArgs)
    (cache : Option Agent) (store : RateStore) (rl : ℕ)
    (hrl : args.rate_limit = some rl)
    (hrej : (_check_rate_limit env.now (rateKey env.client_id) rl store).1 = false) :
    (sql_agent cfg env args cache store).resp.ok = false ∧
    (sql_agent cfg env args cache store).resp.error = some "Rate limit exceeded" ∧
    (sql_agent cfg env args cache store).resp.answer = "" ∧
    (sql_agent cfg env args cache store).resp.token_usage = none ∧
    (sql_agent cfg env args cache store).called_get_agent = false ∧
    (sql_agent cfg env args cache store).invoked_agent = false ∧
    (∀ s : String, env.client_id = some s → s ≠ "" → rateKey env.client_id = s) ∧
    ((env.client_id = none ∨ env.client_id = some "") → rateKey env.client_id = "global") := by
  refine ⟨?_, ?_, ?_, ?_, ?_, ?_, ?_, ?_⟩ <;>
    first
      | (simp [sql_agent, hrl, hrej])
      | skip
  · intro s hs hne
    simp [rateKey, pyTruthy, hs, String.isEmpty_iff, hne]
  · intro h
    rcases h with h | h <;> simp [rateKey, pyTruthy, h, String.isEmpty_iff]

/-- Witness for C4: limit 1, one prior admission, rejection. -/
theorem rate_limit_rejection_envelope_witness :
    (sql_agent cfgWithKey envTest argsRate (some agentTest) storeFull).resp.ok = false ∧
    (sql_agent cfgWithKey envTest argsRate (some agentTest) storeFull).resp.error =
      some "Rate limit exceeded" ∧
    (sql_agent cfgWithKey envTest argsRate (some agentTest) storeFull).resp.answer = "" ∧
    (sql_agent cfgWithKey envTest argsRate (some agentTest) storeFull).resp.token_usage = none ∧
    (sql_agent cfgWithKey envTest argsRate (some agentTest) storeFull).called_get_agent = false ∧
    (sql_agent cfgWithKey envTest argsRate (some agentTest) storeFull).invoked_agent = false := by
  have hrej : (_check_rate_limit envTest.now (rateKey envTest.client_id) 1 storeFull).1
      = false := by
    norm_num [_check_rate_limit, purgeQueue, storeFull, storeSet, emptyStore, rateKey,
      pyTruthy, envTest, window_sec]
  have h := rate_limit_rejection_envelope cfgWithKey envTest argsRate (some agentTest)
    storeFull 1 rfl hrej
  exact ⟨h.1, h.2.1, h.2.2.1, h.2.2.2.1, h.2.2.2.2.1, h.2.2.2.2.2.1⟩

/-- C5: in streamed mode, if no chunk is classified into the `output`
branch, the answer stays empty with `ok = true` and no finish event is
emitted; if an output chunk arrives (the last such), the answer is its
stripped output text and a `finish`/"Done" event is appended. -/
theorem stream_mode_output_behaviour (cfg : Config) (env : Env) (args : SqlAgentArgs)
    (cache : Option Agent) (store : RateStore) (chunks : List Chunk)
    (hpass : args.rate_limit = none ∨ ∀ rl, args.rate_limit = some rl →
      (_check_rate_limit env.now (rateKey env.client_id) rl store).1 = true)
    (hok : ∃ a, (get_agent cfg cache).1 = .ok a)
    (hs : args.stream = true) (hc : env.behavior.chunks = .ok chunks) :
    ((∀ c ∈ chunks, chunkOutputTaken c = none) →
      (sql_agent cfg env args cache store).resp.answer = "" ∧
      (sql_agent cfg env args cache store).resp.ok = true ∧
      ∃ evs, (sql_agent cfg env args cache store).resp.streamed_events = some evs ∧
        ∀ ev ∈ evs, ev.type ≠ "finish") ∧
    (∀ (l1 : List Chunk) (c : Chunk) (v : Option String) (l2 : List Chunk),
      chunks = l1 ++ c :: l2 → chunkOutputTaken c = some v →
      (∀ c2 ∈ l2, chunkOutputTaken c2 = none) →
      (sql_agent cfg env args cache store).resp.answer = pyStrip (pyOrEmpty v) ∧
      ∃ evs, (sql_agent cfg env args cache store).resp.streamed_events = some evs ∧
        ({ type := "finish", tool := none, message := some "Done" } : StreamEvent) ∈ evs) := by
  obtain ⟨store2, heq⟩ := sql_agent_pass cfg env args cache store hpass
  obtain ⟨hansd, hevd, hokd⟩ := sqlAgentDispatch_stream_ok cfg env args cache store2 chunks hok hs hc
  rw [heq]
  constructor
  · intro hno
    obtain ⟨ha, tail, he, hall⟩ := foldl_processChunk_no_output chunks st0 hno
    refine ⟨by rw [hansd, ha]; rfl, hokd,
      (chunks.foldl processChunk st0).events, hevd, ?_⟩
    intro ev hev
    rw [he] at hev
    have hev2 : ev ∈ tail := by simpa [st0] using hev
    rcases hall ev hev2 with h | h <;> simp [h]
  · intro l1 c v l2 hsplit hcv hno2
    have hfold : chunks.foldl processChunk st0 =
        l2.foldl processChunk (outputStep (l1.foldl processChunk st0) v) := by
      rw [hsplit, List.foldl_append, List.foldl_cons, processChunk_output _ c v hcv]
    obtain ⟨ha2, t2, he2, _⟩ :=
      foldl_processChunk_no_output l2 (outputStep (l1.foldl processChunk st0) v) hno2
    constructor
    · rw [hansd, hfold, ha2]
      rfl
    · refine ⟨(chunks.foldl processChunk st0).events, hevd, ?_⟩
      rw [hfold, he2]
      simp [outputStep]

/-- Witness for C5: one output chunk, stripped answer, finish event. -/
theorem stream_mode_output_behaviour_witness :
    (sql_agent cfgWithKey envStream argsStream (some agentTest) emptyStore).resp.answer =
      "Tables: jobs" ∧
    ∃ evs, (sql_agent cfgWithKey envStream argsStream (some agentTest)
        emptyStore).resp.streamed_events = some evs ∧
      ({ type := "finish", tool := none, message := some "Done" } : StreamEvent) ∈ evs := by
  have h := (stream_mode_output_behaviour cfgWithKey envStream argsStream (some agentTest)
      emptyStore [chunkOut] (Or.inl rfl) ⟨agentTest, rfl⟩ rfl rfl).2
    [] chunkOut (some " Tables: jobs ") [] rfl rfl (by simp)
  refine ⟨?_, h.2⟩
  rw [h.1]
  decide

/-- C6: in direct mode on success the answer is the agent's output text
stripped of surrounding whitespace, and empty when the output is absent,
`None`, or empty. -/
theorem direct_mode_answer (cfg : Config) (env : Env) (args : SqlAgentArgs)
    (cache : Option Agent) (store : RateStore) (o : Option String)
    (hpass : args.rate_limit = none ∨ ∀ rl, args.rate_limit = some rl →
      (_check_rate_limit env.now (rateKey env.client_id) rl store).1 = true)
    (hok : ∃ a, (get_agent cfg cache).1 = .ok a)
    (hs : args.stream = false) (hd : env.behavior.direct = .ok o) :
    (sql_agent cfg env args cache store).resp.answer = pyStrip (pyOrEmpty o) ∧
    ((o = none ∨ o = some "") → (sql_agent cfg env args cache store).resp.answer = "") ∧
    (sql_agent cfg env args cache store).resp.ok = true := by
  obtain ⟨store2, heq⟩ := sql_agent_pass cfg env args cache store hpass
  obtain ⟨hans, hokk, _⟩ := sqlAgentDispatch_direct_ok cfg env args cache store2 o hok hs hd
  rw [heq]
  refine ⟨hans, ?_, hokk⟩
  intro h
  rcases h with h | h <;> rw [hans, h] <;> rfl

/-- Witness for C6: the mocked direct answer of the test suite. -/
theorem direct_mode_answer_witness :
    (sql_agent cfgWithKey envDirectOut argsDirect (some agentTest) emptyStore).resp.answer =
      "Here are 3 job titles." ∧
    (sql_agent cfgWithKey envDirectOut argsDirect (some agentTest) emptyStore).resp.ok = true := by
  have h := direct_mode_answer cfgWithKey envDirectOut argsDirect (some agentTest) emptyStore
    (some "Here are 3 job titles.") (Or.inl rfl) ⟨agentTest, rfl⟩ rfl rfl
  refine ⟨?_, h.2.2⟩
  rw [h.1]
  decide

/-- C7: `streamed_events` is non-null only when streaming was requested;
it is null in every direct-mode response and in every failure response. -/
theorem streamed_events_iff_stream (cfg : Config) (env : Env) (args : SqlAgentArgs)
    (cache : Option Agent) (store : RateStore) :
    ((sql_agent cfg env args cache store).resp.streamed_events ≠ none → args.stream = true) ∧
    (args.stream = false → (sql_agent cfg env args cache store).resp.streamed_events = none) ∧
    ((sql_agent cfg env args cache store).resp.ok = false →
      (sql_agent cfg env args cache store).resp.streamed_events = none) := by
  have h2 : args.stream = false →
      (sql_agent cfg env args cache store).resp.streamed_events = none := by
    intro hsf
    unfold sql_agent
    rcases hrl : args.rate_limit with _ | rl
    · exact (sqlAgentDispatch_streamed_events cfg env args cache store).1 hsf
    · rcases hr : (_check_rate_limit env.now (rateKey env.client_id) rl store).1
      · simp [hr]
      · simpa [hr] using (sqlAgentDispatch_streamed_events cfg env args cache
          (_check_rate_limit env.now (rateKey env.client_id) rl store).2).1 hsf
  have h3 : (sql_agent cfg env args cache store).resp.ok = false →
      (sql_agent cfg env args cache store).resp.streamed_events = none := by
    unfold sql_agent
    rcases hrl : args.rate_limit with _ | rl
    · exact (sqlAgentDispatch_streamed_events cfg env args cache store).2
    · rcases hr : (_check_rate_limit env.now (rateKey env.client_id) rl store).1
      · simp [hr]
      · simpa [hr] using (sqlAgentDispatch_streamed_events cfg env args cache
          (_check_rate_limit env.now (rateKey env.client_id) rl store).2).2
  refine ⟨?_, h2, h3⟩
  intro hne
  rcases hb : args.stream
  · exact absurd (h2 hb) hne
  · rfl

/-- Witness for C7: a direct-mode call has null `streamed_events`. -/
theorem streamed_events_iff_stream_witness :
    (sql_agent cfgWithKey envTest argsDirect (some agentTest) emptyStore).resp.streamed_events
      = none :=
  (streamed_events_iff_stream cfgWithKey envTest argsDirect (some agentTest) emptyStore).2.1 rfl

/-- C9: a chunk is processed under exactly one branch, with priority
`actions` over `steps` over `output`; a chunk with both `actions` and
`output` keys contributes action events only: the answer is untouched and
no finish event is emitted for it. -/
theorem chunk_branch_priority (st : StreamState) (c : Chunk) :
    (∀ acts, c.actions = some acts →
      processChunk st c = acts.foldl actionStep st ∧
      (processChunk st c).answer = st.answer ∧
      ∃ tail, (processChunk st c).events = st.events ++ tail ∧
        ∀ e ∈ tail, e.type = "action") ∧
    (c.actions = none → ∀ ss, c.steps = some ss →
      processChunk st c = ss.foldl stepStep st) ∧
    (c.actions = none → c.steps = none → ∀ v, c.output = some v →
      processChunk st c = outputStep st v) := by
  refine ⟨?_, ?_, ?_⟩
  · intro acts hA
    have hP : processChunk st c = acts.foldl actionStep st := by
      unfold processChunk
      rw [hA]
    refine ⟨hP, ?_, ?_⟩
    · rw [hP]
      exact foldl_answer_preserved actionStep (fun st a => rfl) acts st
    · rw [hP]
      exact foldl_events_extend_of actionStep "action" actionStep_event acts st
  · intro hA ss hS
    unfold processChunk
    rw [hA, hS]
  · intro hA hS v hO
    unfold processChunk
    rw [hA, hS, hO]

/-- Witness for C9: a chunk with both `actions` and `output` yields only
an action event and leaves the answer empty. -/
theorem chunk_branch_priority_witness :
    (processChunk st0 chunkBoth).answer = "" ∧
    ∃ tail, (processChunk st0 chunkBoth).events = st0.events ++ tail ∧
      ∀ e ∈ tail, e.type = "action" := by
  have h := (chunk_branch_priority st0 chunkBoth).1 [{ tool := some "t1" }] rfl
  exact ⟨h.2.1, h.2.2⟩

end McpServer
